import Mathlib

/-!
Verification of the request-orchestration core of the axios-api-adapter
repository (src/Adapter/RequestQueue.ts and src/Adapter/Adapter.ts),
embedded shallowly: the deduplication queue is modelled as an association
list from fingerprints to waiter lists, and the per-request pipeline of
fetchData (cache check, transport attempts, retry decision, error
classification, cascade cancellation, header rotation) is modelled as a
fuel-indexed functional interpreter over an explicit trace.
-/

namespace AxiosApiAdapter

/-! ## Deduplication queue (src/Adapter/RequestQueue.ts)

`requestQueue` is a plain JS object mapping a fingerprint string to the
array of queued request options; we model it as an association list from
an abstract key type (JS object keys are strings; the hashing function is
out of scope, so keys are kept abstract with decidable equality) to the
list of waiter identifiers. Waiters are identified by a natural number;
the resolve/reject callbacks of a waiter are modelled by returning the
list of (waiter, value) notifications a settlement produces. -/

/-- Lookup of `requestQueue[fp]` (line 59 / 79 / 88 of RequestQueue.ts). -/
def qlookup {K : Type} [DecidableEq K] (q : List (K × List Nat)) (fp : K) :
    Option (List Nat) :=
  match q with
  | [] => none
  | g :: rest => if g.1 = fp then some g.2 else qlookup rest fp

/-- Model of `requestQueue[requestId].push(requestOptions)` (line 60): append the
new waiter to the existing group for this fingerprint. -/
def pushWaiter {K : Type} [DecidableEq K] (q : List (K × List Nat)) (fp : K)
    (w : Nat) : List (K × List Nat) :=
  q.map (fun g => if g.1 = fp then (g.1, g.2 ++ [w]) else g)

/-- Model of `queueRequest` (RequestQueue.ts lines 47-72): if a group for the
fingerprint exists, join it and do NOT invoke the callback; otherwise
create a singleton group and invoke the callback (the callback is what
starts the transport). The returned Bool records whether the callback was
invoked for this caller. -/
def queueRequestM {K : Type} [DecidableEq K] (q : List (K × List Nat))
    (fp : K) (w : Nat) : List (K × List Nat) × Bool :=
  match qlookup q fp with
  | some _ => (pushWaiter q fp w, false)
  | none => (q ++ [(fp, [w])], true)

/-- Model of `delete requestQueue[url]` (dequeueRequest, lines 74-76). -/
def dequeueRequestM {K : Type} [DecidableEq K] (q : List (K × List Nat))
    (fp : K) : List (K × List Nat) :=
  q.filter (fun g => ¬ g.1 = fp)

/-- Model of `resolveRequest` (lines 78-85): if the group exists and is nonempty,
call every waiter resolve with the same payload and delete the group.
Returns the new queue and, in order, the (waiter, payload) notifications. -/
def resolveRequestM {K V : Type} [DecidableEq K] (q : List (K × List Nat))
    (fp : K) (payload : V) : List (K × List Nat) × List (Nat × V) :=
  match qlookup q fp with
  | some ws =>
      if 0 < ws.length then
        (dequeueRequestM q fp, ws.map (fun w => (w, payload)))
      else (q, [])
  | none => (q, [])

/-- Model of `rejectRequest` (lines 87-94): same shape as resolveRequest, with the
error in place of the payload. -/
def rejectRequestM {K V : Type} [DecidableEq K] (q : List (K × List Nat))
    (fp : K) (err : V) : List (K × List Nat) × List (Nat × V) :=
  match qlookup q fp with
  | some ws =>
      if 0 < ws.length then
        (dequeueRequestM q fp, ws.map (fun w => (w, err)))
      else (q, [])
  | none => (q, [])

/-- Enqueue a batch of waiters one after the other (the N concurrent calls
of the dedup guarantee, arriving in some order with the same fingerprint);
returns the final queue and how many of the calls invoked the callback. -/
def enqueueAll {K : Type} [DecidableEq K] (q : List (K × List Nat)) (fp : K) :
    List Nat → List (K × List Nat) × Nat
  | [] => (q, 0)
  | w :: ws =>
      let r1 := queueRequestM q fp w
      let r2 := enqueueAll r1.1 fp ws
      (r2.1, (if r1.2 then 1 else 0) + r2.2)

/-! ### Queue lemmas -/

theorem qlookup_pushWaiter {K : Type} [DecidableEq K]
    (q : List (K × List Nat)) (fp : K) (w : Nat) :
    qlookup (pushWaiter q fp w) fp = (qlookup q fp).map (fun ws => ws ++ [w]) := by
  induction q with
  | nil => rfl
  | cons g rest ih =>
      by_cases h : g.1 = fp
      · simp [pushWaiter, qlookup, h]
      · simp [pushWaiter, qlookup, h] at ih ⊢
        exact ih

theorem qlookup_append_new {K : Type} [DecidableEq K]
    (q : List (K × List Nat)) (fp : K) (w : Nat)
    (h : qlookup q fp = none) :
    qlookup (q ++ [(fp, [w])]) fp = some [w] := by
  induction q with
  | nil => simp [qlookup]
  | cons g rest ih =>
      by_cases hg : g.1 = fp
      · simp [qlookup, hg] at h
      · simp [qlookup, hg] at h ⊢
        exact ih h

/-- Once a group exists, later identical calls only join it: no callback
is invoked and the waiters accumulate in arrival order. -/
theorem enqueueAll_joins {K : Type} [DecidableEq K]
    (ws : List Nat) (q : List (K × List Nat)) (fp : K) (xs : List Nat)
    (h : qlookup q fp = some xs) :
    (enqueueAll q fp ws).2 = 0 ∧
      qlookup (enqueueAll q fp ws).1 fp = some (xs ++ ws) := by
  induction ws generalizing q xs with
  | nil => simpa [enqueueAll] using h
  | cons w ws ih =>
      have hq : queueRequestM q fp w = (pushWaiter q fp w, false) := by
        simp [queueRequestM, h]
      have hlook : qlookup (pushWaiter q fp w) fp = some (xs ++ [w]) := by
        rw [qlookup_pushWaiter, h]
        rfl
      have := ih (pushWaiter q fp w) (xs ++ [w]) hlook
      simp [enqueueAll, hq, this.1, this.2]

/-- Creating a fresh group: the first caller invokes the callback, and the
group then holds exactly the arrived waiters in order. -/
theorem enqueueAll_creates {K : Type} [DecidableEq K]
    (q : List (K × List Nat)) (fp : K) (w : Nat) (ws : List Nat)
    (h : qlookup q fp = none) :
    (enqueueAll q fp (w :: ws)).2 = 1 ∧
      qlookup (enqueueAll q fp (w :: ws)).1 fp = some (w :: ws) := by
  have hq : queueRequestM q fp w = (q ++ [(fp, [w])], true) := by
    simp [queueRequestM, h]
  have hlook : qlookup (q ++ [(fp, [w])]) fp = some [w] :=
    qlookup_append_new q fp w h
  have hrest := enqueueAll_joins ws (q ++ [(fp, [w])]) fp [w] hlook
  refine ⟨?_, ?_⟩
  · simp [enqueueAll, hq, hrest.1]
  · simpa [enqueueAll, hq] using hrest.2

/-! ## Fingerprinting (RequestQueue.ts lines 51-58)

`queueRequest` hashes a copy of the request options, after replacing a
FormData body by `Date.now()`. The spec places the concrete hashing
function out of scope ("the specific hashing function used to fingerprint
a request"), so the hash is modelled as the injective map onto the
normalized option record itself; two requests share a fingerprint exactly
when their normalized dispatch-relevant options coincide. A FormData body
is modelled with an object identity tag (two distinct FormData instances
compare unequal before normalization, like distinct JS objects). -/

/-- The body (`data`) slot of the hashable options. -/
inductive BodyM where
  /-- no request body -/
  | noBody : BodyM
  /-- an ordinary (deep-comparable) body -/
  | plainBody (s : String) : BodyM
  /-- a FormData body, identified by object identity -/
  | formDataBody (objId : Nat) : BodyM
  /-- the `Date.now()` value substituted for a FormData body (line 56) -/
  | timestampBody (t : Nat) : BodyM
deriving DecidableEq, Repr

/-- The dispatch-relevant request options that get hashed. -/
structure HashableOpts where
  url : String
  method : Option String
  headers : List (String × String)
  body : BodyM
deriving DecidableEq, Repr

/-- Lines 51-57: copy the options and, when the body is FormData, replace
it by the current `Date.now()` timestamp `now`. -/
def normalizeForHash (o : HashableOpts) (now : Nat) : HashableOpts :=
  match o.body with
  | BodyM.formDataBody _ => { o with body := BodyM.timestampBody now }
  | _ => o

/-- Line 58: `String(hashIt(hashableRequestOptions))`, with the hash
abstracted as the injective identity on normalized options. -/
def fingerprintM (o : HashableOpts) (now : Nat) : HashableOpts :=
  normalizeForHash o now

/-! ## Adapter constants (src/Adapter/Adapter.ts lines 14-22, 213-214) -/

def CANCELLED_API_REQUEST_MESSAGE : String := "Request Cancelled"

def EXPIRED_SESSION_ERROR_MESSAGES : List String :=
  ["Session timed out", "Session expired", "User session timed out",
   "User session expired", "Invalid token"]

def FAILED_REQUEST_RETRY_STATUS_BLACKLIST : List Nat := [400, 401, 500]

def MAX_REQUEST_RETRY_COUNT : Nat := 2

/-! ## Response and error values -/

/-- An axios success response, reduced to the fields the orchestrator
reads: status, headers and (string-modelled) data. -/
structure RespModel where
  status : Nat
  headers : List (String × String)
  data : String
deriving DecidableEq, Repr

/-- The `message` field of an error response body: a string, or an array
whose entries may be non-strings (modelled as `none`), or absent. -/
inductive MsgField where
  | strMsg (s : String) : MsgField
  | arrMsg (items : List (Option String)) : MsgField
deriving DecidableEq, Repr

/-- The body (`response.data`) attached to a failed response, reduced to
the two fields the extractor inspects: `message` and `errors[].message`. -/
structure ErrData where
  message : Option MsgField
  errors : Option (List String)
deriving DecidableEq, Repr

/-- The `response` carried by an AxiosError, when one was received. -/
structure ErrResponse where
  status : Nat
  data : Option ErrData
deriving DecidableEq, Repr

/-- An AxiosError: an optional received response plus the transport-level
`message` string (absent modelled as `none`; the empty string is falsy in
the JS truthiness test on line 483). -/
structure ErrModel where
  response : Option ErrResponse
  message : Option String
deriving DecidableEq, Repr

/-- Lines 448-470: extract the server-side error message from the error
response body: a string `message` verbatim; an array `message` keeps only
its string entries joined by newline; else a nonempty `errors` array maps
to each entry message joined by newline; else the generic fallback. -/
def extractServerMessage (d : ErrData) : String :=
  match d.message with
  | some (MsgField.strMsg s) => s
  | some (MsgField.arrMsg items) =>
      String.intercalate "\n" (items.filterMap id)
  | none =>
      match d.errors with
      | some es =>
          if 0 < es.length then String.intercalate "\n" es
          else "Something went wrong"
      | none => "Something went wrong"

/-- A character matched by `\s` in the JS regex of line 484. -/
def isJsWhitespace (c : Char) : Bool :=
  c == ' ' || c == '\t' || c == '\n' || c == '\r' || c == '\x0b' || c == '\x0c'

/-- Whether the pattern list is an initial run of the character list. -/
def charsBeginWith : List Char → List Char → Bool
  | [], _ => true
  | _ :: _, [] => false
  | p :: ps, c :: cs => p == c && charsBeginWith ps cs

/-- One anchored match of `request\sfailed` (already lowercased). -/
def requestFailedHere (l : List Char) : Bool :=
  charsBeginWith "request".toList l &&
    (match l.drop 7 with
     | c :: rest => isJsWhitespace c && charsBeginWith "failed".toList rest
     | [] => false)

/-- Search for `request\sfailed` anywhere in the character list. -/
def requestFailedSearch : List Char → Bool
  | [] => false
  | c :: rest => requestFailedHere (c :: rest) || requestFailedSearch rest

/-- Line 484: `String(message).match(/request\sfailed/gi)` is non-null. -/
def matchesRequestFailed (s : String) : Bool :=
  requestFailedSearch s.toLower.toList

/-- Line 480/486: the formatted failure message. -/
def formatFailedMessage (label m : String) : String :=
  "Error: \x27" ++ label ++ "\x27 failed with message \"" ++ m ++ "\""

/-- Line 488: the generic failure message. -/
def genericFailedMessage (label : String) : String :=
  "Error: \x27" ++ label ++ "\x27 failed. Something went wrong"

/-- Lines 482-488: the branch taken when the error carries no response
body: use the transport message unless it is falsy or contains the
transport default wording `request failed`. -/
def fallbackErrorMessage (label : String) (msg : Option String) : String :=
  match msg with
  | some m =>
      if !(m == "") && !matchesRequestFailed m then formatFailedMessage label m
      else genericFailedMessage label
  | none => genericFailedMessage label

/-- Lines 445-489: compute the error message for a failed attempt, and
whether it is one of the session-expiry phrases (in which case the raw
phrase is kept and the cascade cancellation fires). -/
def classifyErrorMessage (label : String) (e : ErrModel) : String × Bool :=
  match e.response with
  | some r =>
      match r.data with
      | some d =>
          let m := extractServerMessage d
          if EXPIRED_SESSION_ERROR_MESSAGES.contains m then (m, true)
          else (formatFailedMessage label m, false)
      | none => (fallbackErrorMessage label e.message, false)
  | none => (fallbackErrorMessage label e.message, false)

/-! ## Controller hooks, cancellation handles, header store -/

/-- The mutable RequestController singleton (Adapter.ts lines 120-161),
reduced to the four hooks the pipeline consults. Hooks that the source
allows to be asynchronous are modelled by their awaited result. -/
structure ControllerModel where
  processResponse : Option (RespModel → RespModel)
  processResponseError : Option (ErrModel → ErrModel)
  shouldRetryRequest : Option (ErrModel → Nat → Bool)
  rotateHeaders : Option (List (String × String) → List (String × String) →
    List (String × String))

/-- A CancelTokenSource in the pending registry. Each attempt of the run
under scrutiny creates a fresh source object (`mine attempt`); sources
registered by other concurrent requests are `other k`. Distinct
constructors model distinct JS object identities. -/
inductive HandleT where
  | mine (attempt : Nat) : HandleT
  | other (k : Nat) : HandleT
deriving DecidableEq, Repr

/-- Model of `arr.splice(arr.indexOf(x), 1)` (lines 435-438 and 505-508): removes
the first occurrence of `x`; when `x` is absent, `indexOf` returns -1 and
`splice(-1, 1)` removes the last element instead. -/
def spliceOut (l : List HandleT) (x : HandleT) : List HandleT :=
  if l.contains x then l.erase x else l.dropLast

/-- Whether the header record has the given key. -/
def hasKey : List (String × String) → String → Bool
  | [], _ => false
  | p :: rest, k => if p.1 = k then true else hasKey rest k

/-- Property read on a JS object modelled as an insertion-ordered record
with unique keys (first match). -/
def hlookup : List (String × String) → String → Option String
  | [], _ => none
  | p :: rest, k => if p.1 = k then some p.2 else hlookup rest k

/-- One step of `Object.assign`: set a single key, overwriting an existing
entry in place or appending a new one. -/
def assignPair (m : List (String × String)) (kv : String × String) :
    List (String × String) :=
  if hasKey m kv.1 then
    m.map (fun p => if p.1 = kv.1 then (p.1, kv.2) else p)
  else m ++ [kv]

/-- Model of `Object.assign(base, updates)` over string-keyed records
(patchDefaultRequestHeaders, Adapter.ts lines 244-247). -/
def objectAssign (base updates : List (String × String)) :
    List (String × String) :=
  updates.foldl assignPair base

/-! ## The per-request pipeline (fetchData, Adapter.ts lines 282-548) -/

/-- The JS value a waiter promise is settled with on resolution: the
cache-hit path resolves a bare `\x7b data \x7d` object (no status, no
headers), the transport path resolves the full response. -/
structure ResolvedValue where
  rdata : String
  rstatus : Option Nat
  rheaders : Option (List (String × String))
deriving DecidableEq, Repr

/-- How the pending group settles. -/
inductive RunOutcome where
  /-- the code called `resolve(...)` with this value -/
  | resolvedWith (v : ResolvedValue) : RunOutcome
  /-- the code called `reject(Error(errorMessage))` (line 492) -/
  | rejectedWithError (msg : String) : RunOutcome
  /-- the code called `reject(err)` (line 500, with error pre-processing off) -/
  | rejectedWithErr (e : ErrModel) : RunOutcome
  /-- the fuel bound was reached before the run settled -/
  | outOfFuel : RunOutcome
deriving DecidableEq, Repr

/-- The mutable state and event trace threaded through the attempts. -/
structure LoopState where
  registry : List HandleT
  defaults : List (String × String)
  transportCalls : Nat
  pushed : List HandleT
  cancelled : List HandleT
  errorEvents : Nat
  staleCalls : List String
  staleLogged : Nat
  cacheWrites : List String
deriving Repr

/-- The trace of one whole run together with its settlement. -/
structure RunResult where
  outcome : RunOutcome
  registry : List HandleT
  defaults : List (String × String)
  transportCalls : Nat
  pushed : List HandleT
  cancelled : List HandleT
  errorEvents : Nat
  staleCalls : List String
  staleLogged : Nat
  cacheWrites : List String
deriving Repr

/-- Package the loop state with a settlement. -/
def finishRun (ls : LoopState) (o : RunOutcome) : RunResult :=
  { outcome := o
    registry := ls.registry
    defaults := ls.defaults
    transportCalls := ls.transportCalls
    pushed := ls.pushed
    cancelled := ls.cancelled
    errorEvents := ls.errorEvents
    staleCalls := ls.staleCalls
    staleLogged := ls.staleLogged
    cacheWrites := ls.cacheWrites }

/-- A cache entry as returned by `getCachedData` (Adapter.ts line 40). -/
structure CacheEntryM where
  isStale : Bool
  data : String
deriving DecidableEq, Repr

/-- The `getStaleWhileRevalidate` hook, reduced to whether its invocation
throws (the thrown exception is caught and logged on lines 346-350). -/
structure StaleHookM where
  throws : Bool
deriving DecidableEq, Repr

/-- The configuration of one run of the queued callback: the descriptor
fields the pipeline reads, the controller hooks, the adapter flag, the
cache collaborator answer, and the transport outcome per attempt number. -/
structure RunConfig where
  label : String
  method : Option String
  cacheId : Option String
  cacheConfigured : Bool
  cacheResult : Option CacheEntryM
  staleHook : Option StaleHookM
  callProcessResponse : Option (RespModel → RespModel)
  controller : ControllerModel
  transport : Nat → Except ErrModel RespModel
  preProcessResponseErrorMessages : Bool

/-- Lines 402-410: result of the optional shouldRetryRequest hook,
defaulting to false when the hook is not configured. -/
def hookSaysRetry (c : ControllerModel) (e : ErrModel) (n : Nat) : Bool :=
  match c.shouldRetryRequest with
  | some f => f e n
  | none => false

/-- Lines 412-419. The identifier `response` read by the default-retry
conjunct resolves to the enclosing `const response` of line 379, whose
initializer is still running when this catch callback executes, so it
never holds the received error response; the binding visible at that
point is passed in as `outerResponse`. -/
def requestWillRetryB (c : ControllerModel) (e : ErrModel) (n : Nat)
    (outerResponse : Option RespModel) : Bool :=
  hookSaysRetry c e n ||
    (match outerResponse with
     | some r =>
         !(FAILED_REQUEST_RETRY_STATUS_BLACKLIST.contains r.status) &&
           decide (n < MAX_REQUEST_RETRY_COUNT)
     | none => false)

/-- Lines 421-423: the optional error rewrite hook. -/
def applyProcessResponseError (c : ControllerModel) (e : ErrModel) : ErrModel :=
  match c.processResponseError with
  | some f => f e
  | none => e

/-- The success handler of lines 388-399: run the controller-level
processResponse, feed its output to the per-call processResponse when one
is given; with no per-call processor the handler returns the original
`response` (line 398), not the controller-processed value. -/
def thenHandler (c : ControllerModel) (callProc : Option (RespModel → RespModel))
    (response : RespModel) : RespModel :=
  let requestControllerResponse :=
    match c.processResponse with
    | some f => f response
    | none => response
  match callProc with
  | some p => p requestControllerResponse
  | none => response

/-- JS truthiness of an optional string (absent and empty are falsy). -/
def jsTruthyStr : Option String → Bool
  | none => false
  | some s => !(s == "")

/-- Line 327-329: `!options.method || method === \x27get\x27 ||
method === \x27GET\x27`. -/
def isGetEquivalent : Option String → Bool
  | none => true
  | some s => s == "" || s == "get" || s == "GET"

/-- Lines 369-376: create the cancel token source of attempt `n`, hand a
cancel function to `getRequestController` when provided, and push the
source onto the pending registry; the transport is then invoked once. -/
def pushAttempt (n : Nat) (ls : LoopState) : LoopState :=
  { ls with
      registry := ls.registry ++ [HandleT.mine n]
      pushed := ls.pushed ++ [HandleT.mine n]
      transportCalls := ls.transportCalls + 1 }

/-- Lines 425-432: notify the subscribed error listeners. -/
def emitErrorEvent (ls : LoopState) : LoopState :=
  { ls with errorEvents := ls.errorEvents + 1 }

/-- Lines 434-493 up to the retry decision (error pre-processing
enabled): splice this attempt out of the registry, classify the error
message from the already-rewritten error, and on a session-expiry phrase
cascade-cancel a copy of the registered sources. Returns the updated
state and the computed errorMessage. -/
def classifyStep (cfg : RunConfig) (n : Nat) (ls : LoopState)
    (e2 : ErrModel) : LoopState × String :=
  let reg1 := spliceOut ls.registry (HandleT.mine n)
  let cm := classifyErrorMessage cfg.label e2
  let cancelledNow := if cm.2 then reg1 else []
  ({ ls with registry := reg1, cancelled := ls.cancelled ++ cancelledNow },
    cm.1)

/-- Lines 504-541: the success block: splice this attempt out of the
registry, rotate headers when configured (merging the rotation output
into the defaults), best-effort cache write, and resolve the group with
the full response object produced by the then-handler. -/
def successSettle (cfg : RunConfig) (n : Nat) (ls : LoopState)
    (resp : RespModel) : RunResult :=
  let outResp := thenHandler cfg.controller cfg.callProcessResponse resp
  let reg1 := spliceOut ls.registry (HandleT.mine n)
  let defaults1 :=
    match cfg.controller.rotateHeaders with
    | some rot => objectAssign ls.defaults (rot outResp.headers ls.defaults)
    | none => ls.defaults
  let writes :=
    if jsTruthyStr cfg.cacheId && cfg.cacheConfigured then [outResp.data]
    else []
  finishRun
    { ls with
        registry := reg1
        defaults := defaults1
        cacheWrites := ls.cacheWrites ++ writes }
    (RunOutcome.resolvedWith
      { rdata := outResp.data
        rstatus := some outResp.status
        rheaders := some outResp.headers })

/-- The inner `fetchData` retry loop (lines 368-543), indexed by fuel
(strictly more than the number of attempts the run may take). Each
iteration registers a fresh cancel token source, invokes the transport
once, and either settles the group or recurses with `retryCount + 1`. -/
def fetchDataLoop (cfg : RunConfig) : Nat → Nat → LoopState → RunResult
  | 0, _, ls => finishRun ls RunOutcome.outOfFuel
  | Nat.succ fuel, retryCount, ls =>
      let ls1 := pushAttempt retryCount ls
      match cfg.transport retryCount with
      | Except.ok resp => successSettle cfg retryCount ls1 resp
      | Except.error e =>
          let retryQ := requestWillRetryB cfg.controller e retryCount none
          let e2 := applyProcessResponseError cfg.controller e
          let ls2 := emitErrorEvent ls1
          if cfg.preProcessResponseErrorMessages then
            let s := classifyStep cfg retryCount ls2 e2
            if !retryQ then finishRun s.1 (RunOutcome.rejectedWithError s.2)
            else fetchDataLoop cfg fuel (retryCount + 1) s.1
          else
            if retryQ then fetchDataLoop cfg fuel (retryCount + 1) ls2
            else finishRun ls2 (RunOutcome.rejectedWithErr e2)

/-- The state at the start of the queued callback: the registry holds the
cancel token sources other concurrent requests have registered, and the
defaults the current default request headers; nothing has happened yet. -/
def initLoopState (registry0 : List HandleT)
    (defaults0 : List (String × String)) : LoopState :=
  { registry := registry0
    defaults := defaults0
    transportCalls := 0
    pushed := []
    cancelled := []
    errorEvents := 0
    staleCalls := []
    staleLogged := 0
    cacheWrites := [] }

/-- Lines 344-351: a stale entry invokes `getStaleWhileRevalidate(data)`
when provided, catching (and logging) anything it throws. -/
def staleNotify (entry : CacheEntryM) (hook : Option StaleHookM)
    (ls : LoopState) : LoopState :=
  match hook with
  | some h =>
      { ls with
          staleCalls := ls.staleCalls ++ [entry.data]
          staleLogged := ls.staleLogged + (if h.throws then 1 else 0) }
  | none => ls

/-- The body of the queued callback (lines 322-544): the cache pre-check
of lines 323-360 followed by the transport loop. `registry0` holds the
cancel token sources other concurrent requests have registered, and
`defaults0` the current default request headers. -/
def runPipeline (cfg : RunConfig) (registry0 : List HandleT)
    (defaults0 : List (String × String)) (fuel : Nat) : RunResult :=
  let ls0 := initLoopState registry0 defaults0
  if jsTruthyStr cfg.cacheId && cfg.cacheConfigured &&
      isGetEquivalent cfg.method then
    match cfg.cacheResult with
    | some entry =>
        if entry.isStale then
          fetchDataLoop cfg fuel 0 (staleNotify entry cfg.staleHook ls0)
        else
          finishRun ls0
            (RunOutcome.resolvedWith
              { rdata := entry.data, rstatus := none, rheaders := none })
    | none => fetchDataLoop cfg fuel 0 ls0
  else fetchDataLoop cfg fuel 0 ls0

/-! ## General lemmas -/

/-- Removing a just-appended fresh element restores the list. -/
theorem spliceOut_append_fresh (l : List HandleT) (x : HandleT) (h : x ∉ l) :
    spliceOut (l ++ [x]) x = l := by
  rw [spliceOut, if_pos (by simp)]
  rw [List.erase_append_right _ h]
  simp

/-- A key outside the record looks up to none. -/
theorem hlookup_eq_none_of_not_mem (m : List (String × String)) (k : String)
    (h : k ∉ m.map Prod.fst) : hlookup m k = none := by
  induction m with
  | nil => rfl
  | cons p rest ih =>
      simp only [List.map_cons, List.mem_cons] at h
      push_neg at h
      have hp : ¬ p.1 = k := fun hk => h.1 hk.symm
      simp [hlookup, hp, ih h.2]

/-- hasKey agrees with hlookup. -/
theorem hasKey_eq_isSome (m : List (String × String)) (k : String) :
    hasKey m k = (hlookup m k).isSome := by
  induction m with
  | nil => rfl
  | cons p rest ih =>
      by_cases hp : p.1 = k <;> simp [hasKey, hlookup, hp, ih]

/-- Overwriting the entries holding key `kk` in place does not change the
lookup of a different key. -/
theorem hlookup_mapReplace_ne (m : List (String × String)) (kk v k : String)
    (h : ¬ kk = k) :
    hlookup (m.map (fun p => if p.1 = kk then (p.1, v) else p)) k =
      hlookup m k := by
  have hkk : ¬ k = kk := fun e => h e.symm
  induction m with
  | nil => rfl
  | cons p rest ih =>
      by_cases hp : p.1 = kk
      · have hpk : ¬ p.1 = k := by rw [hp]; exact h
        simp [hlookup, hp, hpk, ih, h]
      · by_cases hpk : p.1 = k
        · simp [hlookup, hp, hpk, hkk]
        · simp [hlookup, hp, hpk, ih]

/-- Appending an entry with a different key does not change a lookup. -/
theorem hlookup_append_single_ne (m : List (String × String))
    (kv : String × String) (k : String) (h : ¬ kv.1 = k) :
    hlookup (m ++ [kv]) k = hlookup m k := by
  induction m with
  | nil => simp [hlookup, h]
  | cons p rest ih =>
      by_cases hp : p.1 = k <;> simp [hlookup, hp, ih]

/-- In-place overwrite of an existing key makes it look up to the new
value. -/
theorem hlookup_mapReplace_self (m : List (String × String)) (k v : String)
    (hk : hasKey m k = true) :
    hlookup (m.map (fun p => if p.1 = k then (p.1, v) else p)) k = some v := by
  induction m with
  | nil => simp [hasKey] at hk
  | cons p rest ih =>
      by_cases hp : p.1 = k
      · simp [hlookup, hp]
      · simp only [hasKey, if_neg hp] at hk
        simp [hlookup, hp, ih hk]

/-- Appending a fresh key makes it look up to the appended value. -/
theorem hlookup_append_single_self (m : List (String × String)) (k v : String)
    (hk : hasKey m k = false) :
    hlookup (m ++ [(k, v)]) k = some v := by
  induction m with
  | nil => simp [hlookup]
  | cons p rest ih =>
      by_cases hp : p.1 = k
      · simp [hasKey, hp] at hk
      · simp only [hasKey, if_neg hp] at hk
        simp [hlookup, hp, ih hk]

/-- Setting a key makes it look up to the new value. -/
theorem hlookup_assignPair_self (m : List (String × String)) (k v : String) :
    hlookup (assignPair m (k, v)) k = some v := by
  rw [assignPair]
  by_cases hk : hasKey m k
  · rw [if_pos hk]; exact hlookup_mapReplace_self m k v hk
  · rw [if_neg hk]
    exact hlookup_append_single_self m k v (by simpa using hk)

/-- Setting a different key leaves a lookup unchanged. -/
theorem hlookup_assignPair_ne (m : List (String × String))
    (kv : String × String) (k : String) (h : ¬ kv.1 = k) :
    hlookup (assignPair m kv) k = hlookup m k := by
  rw [assignPair]
  by_cases hk : hasKey m kv.1
  · rw [if_pos hk]; exact hlookup_mapReplace_ne m kv.1 kv.2 k h
  · rw [if_neg hk]; exact hlookup_append_single_ne m kv k h

/-- Object.assign leaves keys absent from the update mapping unchanged. -/
theorem objectAssign_lookup_none (u : List (String × String)) :
    ∀ (b : List (String × String)) (k : String), hlookup u k = none →
      hlookup (objectAssign b u) k = hlookup b k := by
  induction u with
  | nil => intro b k _; rfl
  | cons kv u ih =>
      intro b k h
      have hne : ¬ kv.1 = k := by
        intro he
        simp [hlookup, he] at h
      have hu : hlookup u k = none := by
        simpa [hlookup, hne] using h
      calc hlookup (objectAssign (assignPair b kv) u) k
          = hlookup (assignPair b kv) k := ih (assignPair b kv) k hu
        _ = hlookup b k := hlookup_assignPair_ne b kv k hne

/-- Object.assign gives every key of the update mapping (with unique keys,
as a JS object has) its updated value. -/
theorem objectAssign_lookup_some (u : List (String × String)) :
    ∀ (b : List (String × String)) (k v : String),
      (u.map Prod.fst).Nodup → hlookup u k = some v →
      hlookup (objectAssign b u) k = some v := by
  induction u with
  | nil => intro b k v _ h; simp [hlookup] at h
  | cons kv u ih =>
      intro b k v hnd h
      simp only [List.map_cons, List.nodup_cons] at hnd
      by_cases hk : kv.1 = k
      · have hv : v = kv.2 := by
          rw [hlookup, if_pos hk] at h
          exact (Option.some_inj.mp h).symm
        have hnone : hlookup u k = none := by
          apply hlookup_eq_none_of_not_mem
          rw [← hk]
          exact hnd.1
        calc hlookup (objectAssign (assignPair b kv) u) k
            = hlookup (assignPair b kv) k :=
              objectAssign_lookup_none u (assignPair b kv) k hnone
          _ = some v := by
              rw [hv, ← hk]
              exact hlookup_assignPair_self b kv.1 kv.2
      · have hu : hlookup u k = some v := by
          rwa [hlookup, if_neg hk] at h
        exact ih (assignPair b kv) k v hnd.2 hu

/-! ## Projections of the step helpers -/

@[simp] theorem pushAttempt_registry (n : Nat) (ls : LoopState) :
    (pushAttempt n ls).registry = ls.registry ++ [HandleT.mine n] := rfl

@[simp] theorem pushAttempt_pushed (n : Nat) (ls : LoopState) :
    (pushAttempt n ls).pushed = ls.pushed ++ [HandleT.mine n] := rfl

@[simp] theorem pushAttempt_transportCalls (n : Nat) (ls : LoopState) :
    (pushAttempt n ls).transportCalls = ls.transportCalls + 1 := rfl

@[simp] theorem emitErrorEvent_registry (ls : LoopState) :
    (emitErrorEvent ls).registry = ls.registry := rfl

@[simp] theorem emitErrorEvent_pushed (ls : LoopState) :
    (emitErrorEvent ls).pushed = ls.pushed := rfl

@[simp] theorem emitErrorEvent_transportCalls (ls : LoopState) :
    (emitErrorEvent ls).transportCalls = ls.transportCalls := rfl

@[simp] theorem classifyStep_registry (cfg : RunConfig) (n : Nat)
    (ls : LoopState) (e2 : ErrModel) :
    ((classifyStep cfg n ls e2).1).registry =
      spliceOut ls.registry (HandleT.mine n) := rfl

@[simp] theorem classifyStep_pushed (cfg : RunConfig) (n : Nat)
    (ls : LoopState) (e2 : ErrModel) :
    ((classifyStep cfg n ls e2).1).pushed = ls.pushed := rfl

@[simp] theorem classifyStep_transportCalls (cfg : RunConfig) (n : Nat)
    (ls : LoopState) (e2 : ErrModel) :
    ((classifyStep cfg n ls e2).1).transportCalls = ls.transportCalls := rfl

@[simp] theorem finishRun_registry (ls : LoopState) (o : RunOutcome) :
    (finishRun ls o).registry = ls.registry := rfl

@[simp] theorem finishRun_pushed (ls : LoopState) (o : RunOutcome) :
    (finishRun ls o).pushed = ls.pushed := rfl

@[simp] theorem finishRun_transportCalls (ls : LoopState) (o : RunOutcome) :
    (finishRun ls o).transportCalls = ls.transportCalls := rfl

@[simp] theorem successSettle_registry (cfg : RunConfig) (n : Nat)
    (ls : LoopState) (resp : RespModel) :
    (successSettle cfg n ls resp).registry =
      spliceOut ls.registry (HandleT.mine n) := rfl

@[simp] theorem successSettle_pushed (cfg : RunConfig) (n : Nat)
    (ls : LoopState) (resp : RespModel) :
    (successSettle cfg n ls resp).pushed = ls.pushed := rfl

@[simp] theorem successSettle_transportCalls (cfg : RunConfig) (n : Nat)
    (ls : LoopState) (resp : RespModel) :
    (successSettle cfg n ls resp).transportCalls = ls.transportCalls := rfl

@[simp] theorem finishRun_outcome (ls : LoopState) (o : RunOutcome) :
    (finishRun ls o).outcome = o := rfl

@[simp] theorem finishRun_defaults (ls : LoopState) (o : RunOutcome) :
    (finishRun ls o).defaults = ls.defaults := rfl

@[simp] theorem finishRun_cancelled (ls : LoopState) (o : RunOutcome) :
    (finishRun ls o).cancelled = ls.cancelled := rfl

@[simp] theorem finishRun_staleCalls (ls : LoopState) (o : RunOutcome) :
    (finishRun ls o).staleCalls = ls.staleCalls := rfl

@[simp] theorem finishRun_staleLogged (ls : LoopState) (o : RunOutcome) :
    (finishRun ls o).staleLogged = ls.staleLogged := rfl

@[simp] theorem successSettle_outcome (cfg : RunConfig) (n : Nat)
    (ls : LoopState) (resp : RespModel) :
    (successSettle cfg n ls resp).outcome =
      RunOutcome.resolvedWith
        { rdata := (thenHandler cfg.controller cfg.callProcessResponse resp).data
          rstatus := some (thenHandler cfg.controller cfg.callProcessResponse resp).status
          rheaders := some (thenHandler cfg.controller cfg.callProcessResponse resp).headers } :=
  rfl

@[simp] theorem successSettle_defaults (cfg : RunConfig) (n : Nat)
    (ls : LoopState) (resp : RespModel) :
    (successSettle cfg n ls resp).defaults =
      (match cfg.controller.rotateHeaders with
       | some rot =>
           objectAssign ls.defaults
             (rot (thenHandler cfg.controller cfg.callProcessResponse resp).headers
               ls.defaults)
       | none => ls.defaults) := rfl

@[simp] theorem successSettle_staleCalls (cfg : RunConfig) (n : Nat)
    (ls : LoopState) (resp : RespModel) :
    (successSettle cfg n ls resp).staleCalls = ls.staleCalls := rfl

@[simp] theorem successSettle_staleLogged (cfg : RunConfig) (n : Nat)
    (ls : LoopState) (resp : RespModel) :
    (successSettle cfg n ls resp).staleLogged = ls.staleLogged := rfl

@[simp] theorem initLoopState_registry (r : List HandleT)
    (d : List (String × String)) : (initLoopState r d).registry = r := rfl

@[simp] theorem initLoopState_defaults (r : List HandleT)
    (d : List (String × String)) : (initLoopState r d).defaults = d := rfl

@[simp] theorem initLoopState_transportCalls (r : List HandleT)
    (d : List (String × String)) : (initLoopState r d).transportCalls = 0 := rfl

@[simp] theorem initLoopState_pushed (r : List HandleT)
    (d : List (String × String)) : (initLoopState r d).pushed = [] := rfl

@[simp] theorem initLoopState_cancelled (r : List HandleT)
    (d : List (String × String)) : (initLoopState r d).cancelled = [] := rfl

@[simp] theorem initLoopState_staleCalls (r : List HandleT)
    (d : List (String × String)) : (initLoopState r d).staleCalls = [] := rfl

@[simp] theorem initLoopState_staleLogged (r : List HandleT)
    (d : List (String × String)) : (initLoopState r d).staleLogged = 0 := rfl

/-! ## Loop invariants of the transport loop -/

/-- With error pre-processing enabled (the default configuration), every
attempt removes its cancel token source before settling or recursing, so
the registry a run leaves behind is the registry it started from. -/
theorem fetchDataLoop_registry_restore (cfg : RunConfig)
    (hflag : cfg.preProcessResponseErrorMessages = true) :
    ∀ (fuel n : Nat) (ls : LoopState),
      (∀ m, HandleT.mine m ∉ ls.registry) →
      (fetchDataLoop cfg fuel n ls).registry = ls.registry := by
  intro fuel
  induction fuel with
  | zero => intro n ls _; rfl
  | succ fuel ih =>
      intro n ls h
      have hsplice :
          spliceOut (ls.registry ++ [HandleT.mine n]) (HandleT.mine n) =
            ls.registry := spliceOut_append_fresh ls.registry _ (h n)
      rw [fetchDataLoop]
      cases htr : cfg.transport n with
      | ok resp => simp [htr, hsplice]
      | error e =>
          simp only [htr, hflag, if_true]
          cases hq : requestWillRetryB cfg.controller e n none with
          | false => simp [hsplice]
          | true =>
              rw [if_neg (by simp)]
              have hrest :
                  ∀ m, HandleT.mine m ∉
                    ((classifyStep cfg n
                        (emitErrorEvent (pushAttempt n ls))
                        (applyProcessResponseError cfg.controller e)).1).registry := by
                intro m
                simp [hsplice]
                exact h m
              rw [ih (n + 1) _ hrest]
              simp [hsplice]

/-- Every attempt pushes exactly one fresh cancel token source: the run
pushes, in order, the sources of attempts `n, n+1, ...`, one per
transport invocation. -/
theorem fetchDataLoop_pushed (cfg : RunConfig) :
    ∀ (fuel n : Nat) (ls : LoopState),
      ∃ k,
        (fetchDataLoop cfg fuel n ls).transportCalls =
            ls.transportCalls + k ∧
          (fetchDataLoop cfg fuel n ls).pushed =
            ls.pushed ++ (List.range' n k).map HandleT.mine := by
  intro fuel
  induction fuel with
  | zero => intro n ls; exact ⟨0, rfl, by simp [fetchDataLoop]⟩
  | succ fuel ih =>
      intro n ls
      rw [fetchDataLoop]
      cases htr : cfg.transport n with
      | ok resp => exact ⟨1, by simp, by simp [List.range'_one]⟩
      | error e =>
          cases hflag : cfg.preProcessResponseErrorMessages with
          | true =>
              simp only [if_true]
              cases hq : requestWillRetryB cfg.controller e n none with
              | false => exact ⟨1, by simp, by simp [List.range'_one]⟩
              | true =>
                  rw [if_neg (by simp)]
                  obtain ⟨k, hk1, hk2⟩ :=
                    ih (n + 1)
                      ((classifyStep cfg n (emitErrorEvent (pushAttempt n ls))
                        (applyProcessResponseError cfg.controller e)).1)
                  refine ⟨k + 1, ?_, ?_⟩
                  · rw [hk1]; simp; omega
                  · rw [hk2]; simp [List.range'_succ]
          | false =>
              dsimp only
              cases hq : requestWillRetryB cfg.controller e n none with
              | false => exact ⟨1, by simp, by simp [List.range'_one]⟩
              | true =>
                  rw [if_neg (by simp : ¬ false = true), if_pos rfl]
                  obtain ⟨k, hk1, hk2⟩ :=
                    ih (n + 1) (emitErrorEvent (pushAttempt n ls))
                  refine ⟨k + 1, ?_, ?_⟩
                  · rw [hk1]; simp; omega
                  · rw [hk2]; simp [List.range'_succ]

@[simp] theorem pushAttempt_defaults (n : Nat) (ls : LoopState) :
    (pushAttempt n ls).defaults = ls.defaults := rfl

@[simp] theorem pushAttempt_cancelled (n : Nat) (ls : LoopState) :
    (pushAttempt n ls).cancelled = ls.cancelled := rfl

@[simp] theorem pushAttempt_staleCalls (n : Nat) (ls : LoopState) :
    (pushAttempt n ls).staleCalls = ls.staleCalls := rfl

@[simp] theorem pushAttempt_staleLogged (n : Nat) (ls : LoopState) :
    (pushAttempt n ls).staleLogged = ls.staleLogged := rfl

@[simp] theorem emitErrorEvent_defaults (ls : LoopState) :
    (emitErrorEvent ls).defaults = ls.defaults := rfl

@[simp] theorem emitErrorEvent_cancelled (ls : LoopState) :
    (emitErrorEvent ls).cancelled = ls.cancelled := rfl

@[simp] theorem emitErrorEvent_staleCalls (ls : LoopState) :
    (emitErrorEvent ls).staleCalls = ls.staleCalls := rfl

@[simp] theorem emitErrorEvent_staleLogged (ls : LoopState) :
    (emitErrorEvent ls).staleLogged = ls.staleLogged := rfl

@[simp] theorem classifyStep_defaults (cfg : RunConfig) (n : Nat)
    (ls : LoopState) (e2 : ErrModel) :
    ((classifyStep cfg n ls e2).1).defaults = ls.defaults := rfl

@[simp] theorem classifyStep_staleCalls (cfg : RunConfig) (n : Nat)
    (ls : LoopState) (e2 : ErrModel) :
    ((classifyStep cfg n ls e2).1).staleCalls = ls.staleCalls := rfl

@[simp] theorem classifyStep_staleLogged (cfg : RunConfig) (n : Nat)
    (ls : LoopState) (e2 : ErrModel) :
    ((classifyStep cfg n ls e2).1).staleLogged = ls.staleLogged := rfl

@[simp] theorem staleNotify_some_staleCalls (entry : CacheEntryM)
    (h : StaleHookM) (ls : LoopState) :
    (staleNotify entry (some h) ls).staleCalls =
      ls.staleCalls ++ [entry.data] := rfl

@[simp] theorem staleNotify_some_staleLogged (entry : CacheEntryM)
    (h : StaleHookM) (ls : LoopState) :
    (staleNotify entry (some h) ls).staleLogged =
      ls.staleLogged + (if h.throws then 1 else 0) := rfl

@[simp] theorem staleNotify_some_transportCalls (entry : CacheEntryM)
    (h : StaleHookM) (ls : LoopState) :
    (staleNotify entry (some h) ls).transportCalls = ls.transportCalls := rfl

@[simp] theorem staleNotify_some_registry (entry : CacheEntryM)
    (h : StaleHookM) (ls : LoopState) :
    (staleNotify entry (some h) ls).registry = ls.registry := rfl

@[simp] theorem staleNotify_some_defaults (entry : CacheEntryM)
    (h : StaleHookM) (ls : LoopState) :
    (staleNotify entry (some h) ls).defaults = ls.defaults := rfl

/-! ## One-step evaluations of the transport loop -/

/-- A successful first transport settles via the success block. -/
theorem fetchDataLoop_succ_ok (cfg : RunConfig) (fuel n : Nat)
    (ls : LoopState) (r : RespModel) (htr : cfg.transport n = Except.ok r) :
    fetchDataLoop cfg (fuel + 1) n ls =
      successSettle cfg n (pushAttempt n ls) r := by
  rw [fetchDataLoop, htr]

/-- A failed transport with pre-processing on and no retry warranted
rejects with the classified error message. -/
theorem fetchDataLoop_succ_error_reject (cfg : RunConfig) (fuel n : Nat)
    (ls : LoopState) (e : ErrModel)
    (htr : cfg.transport n = Except.error e)
    (hflag : cfg.preProcessResponseErrorMessages = true)
    (hq : requestWillRetryB cfg.controller e n none = false) :
    fetchDataLoop cfg (fuel + 1) n ls =
      finishRun
        (classifyStep cfg n (emitErrorEvent (pushAttempt n ls))
          (applyProcessResponseError cfg.controller e)).1
        (RunOutcome.rejectedWithError
          (classifyStep cfg n (emitErrorEvent (pushAttempt n ls))
            (applyProcessResponseError cfg.controller e)).2) := by
  rw [fetchDataLoop, htr]
  dsimp only
  rw [hflag, if_pos rfl, hq]
  rw [if_pos (show (!false) = true from rfl)]

/-! ## Claim theorems -/

/-- C1: for every set of N concurrent calls (N >= 1) whose request options
hash to the same fingerprint while a PendingGroup for that fingerprint
exists, exactly one transport invocation occurs (queueRequest invokes the
callback, which starts the transport, only for the first caller: the
callback count over the whole batch is one), and upon settlement every one
of the N waiters is resolved (or rejected) with the identical payload (or
error) value. -/
theorem C1_dedup_single_dispatch {K V : Type} [DecidableEq K]
    (q : List (K × List Nat)) (fp : K) (w : Nat) (ws : List Nat)
    (p err : V) (h : qlookup q fp = none) :
    (enqueueAll q fp (w :: ws)).2 = 1 ∧
      (resolveRequestM (enqueueAll q fp (w :: ws)).1 fp p).2 =
        (w :: ws).map (fun x => (x, p)) ∧
      (rejectRequestM (enqueueAll q fp (w :: ws)).1 fp err).2 =
        (w :: ws).map (fun x => (x, err)) := by
  obtain ⟨h1, h2⟩ := enqueueAll_creates q fp w ws h
  refine ⟨h1, ?_, ?_⟩
  · simp [resolveRequestM, h2]
  · simp [rejectRequestM, h2]

/-- Witness for C1: three concurrent identical calls, one callback
invocation, all three waiters notified with the same payload or error. -/
theorem C1_dedup_single_dispatch_witness :
    (enqueueAll ([] : List (String × List Nat)) "GET /users" [0, 1, 2]).2 = 1 ∧
      (resolveRequestM
          (enqueueAll ([] : List (String × List Nat)) "GET /users" [0, 1, 2]).1
          "GET /users" "payload").2 =
        [(0, "payload"), (1, "payload"), (2, "payload")] ∧
      (rejectRequestM
          (enqueueAll ([] : List (String × List Nat)) "GET /users" [0, 1, 2]).1
          "GET /users" "boom").2 =
        [(0, "boom"), (1, "boom"), (2, "boom")] := by
  have h := C1_dedup_single_dispatch
    ([] : List (String × List Nat)) "GET /users" 0 [1, 2] "payload" "boom" rfl
  simpa using h

/-- A multipart upload descriptor whose FormData body has object
identity 0, with every other dispatch-relevant field fixed. -/
def multipartUploadA : HashableOpts :=
  { url := "/upload"
    method := some "POST"
    headers := []
    body := BodyM.formDataBody 0 }

/-- The same upload with a distinct FormData object (identity 1). -/
def multipartUploadB : HashableOpts :=
  { url := "/upload"
    method := some "POST"
    headers := []
    body := BodyM.formDataBody 1 }

/-- C8 counterexample: two distinct FormData uploads enqueued within the
same `Date.now()` millisecond receive the same fingerprint, and the
second call joins the first group instead of dispatching its own
transport call (its callback flag is false), contradicting the claim that
two multipart-body requests never share a fingerprint. -/
theorem C8_formdata_counterexample :
    ¬ multipartUploadA = multipartUploadB ∧
      fingerprintM multipartUploadA 1700000000000 =
        fingerprintM multipartUploadB 1700000000000 ∧
      (queueRequestM
          (queueRequestM ([] : List (HashableOpts × List Nat))
            (fingerprintM multipartUploadA 1700000000000) 0).1
          (fingerprintM multipartUploadB 1700000000000) 1).2 = false := by
  decide

/-- C8 amended: two multipart/binary-body requests enqueued at different
`Date.now()` timestamps never share a fingerprint, so each dispatches its
own transport call; requests enqueued within the same millisecond do
share a fingerprint and are deduplicated. -/
theorem C8_formdata_amended (o1 o2 : HashableOpts) (i j t1 t2 w1 w2 : Nat)
    (h1 : o1.body = BodyM.formDataBody i)
    (h2 : o2.body = BodyM.formDataBody j)
    (ht : ¬ t1 = t2) :
    ¬ fingerprintM o1 t1 = fingerprintM o2 t2 ∧
      (queueRequestM
          (queueRequestM ([] : List (HashableOpts × List Nat))
            (fingerprintM o1 t1) w1).1
          (fingerprintM o2 t2) w2).2 = true := by
  have hf1 : fingerprintM o1 t1 = { o1 with body := BodyM.timestampBody t1 } := by
    simp [fingerprintM, normalizeForHash, h1]
  have hf2 : fingerprintM o2 t2 = { o2 with body := BodyM.timestampBody t2 } := by
    simp [fingerprintM, normalizeForHash, h2]
  have hne : ¬ fingerprintM o1 t1 = fingerprintM o2 t2 := by
    rw [hf1, hf2]
    intro he
    have hb := congrArg HashableOpts.body he
    simp at hb
    exact ht hb
  refine ⟨hne, ?_⟩
  have hq1 : queueRequestM ([] : List (HashableOpts × List Nat))
      (fingerprintM o1 t1) w1 = ([(fingerprintM o1 t1, [w1])], true) := by
    simp [queueRequestM, qlookup]
  rw [hq1]
  simp [queueRequestM, qlookup, hne]

/-- Witness for C8 amended: the same upload enqueued at two different
timestamps fingerprints differently and the second call dispatches its
own transport (callback invoked). -/
theorem C8_formdata_amended_witness :
    ¬ fingerprintM multipartUploadA 1000 = fingerprintM multipartUploadA 1001 ∧
      (queueRequestM
          (queueRequestM ([] : List (HashableOpts × List Nat))
            (fingerprintM multipartUploadA 1000) 0).1
          (fingerprintM multipartUploadA 1001) 1).2 = true :=
  C8_formdata_amended multipartUploadA multipartUploadA 0 0 1000 1001 0 1
    rfl rfl (by decide)

/-- A controller with no hooks configured. -/
def noHooks : ControllerModel :=
  { processResponse := none
    processResponseError := none
    shouldRetryRequest := none
    rotateHeaders := none }

/-- A plain successful response used by concrete instances. -/
def okOrders : RespModel :=
  { status := 200, headers := [("content-type", "json")], data := "freshOrders" }

/-- A GET request for cached data: cache configured, cache returning a
fresh (non-stale) entry, transport succeeding if it were consulted. -/
def freshCacheCfg : RunConfig :=
  { label := "Loading orders"
    method := none
    cacheId := some "orders"
    cacheConfigured := true
    cacheResult := some { isStale := false, data := "cachedOrders" }
    staleHook := none
    callProcessResponse := none
    controller := noHooks
    transport := fun _ => Except.ok okOrders
    preProcessResponseErrorMessages := true }

/-- The same request when the cache returns a stale entry and the caller
supplied a `getStaleWhileRevalidate` hook that throws. -/
def staleCacheCfg : RunConfig :=
  { freshCacheCfg with
      cacheResult := some { isStale := true, data := "staleOrders" }
      staleHook := some { throws := true } }

/-- A plain network request with no cache involvement. -/
def netOnlyCfg : RunConfig :=
  { label := "Loading users"
    method := none
    cacheId := none
    cacheConfigured := false
    cacheResult := none
    staleHook := none
    callProcessResponse := none
    controller := noHooks
    transport := fun _ => Except.ok okOrders
    preProcessResponseErrorMessages := true }

/-- C4: for every GET-equivalent request carrying a (truthy) cacheId,
when a cache collaborator is configured and getCachedData returns an
entry with isStale falsy, the group is settled immediately with the
cached data and no transport invocation occurs for that group. -/
theorem C4_fresh_cache_hit (cfg : RunConfig) (reg0 : List HandleT)
    (d0 : List (String × String)) (fuel : Nat) (d : String)
    (hid : jsTruthyStr cfg.cacheId = true)
    (hcfg : cfg.cacheConfigured = true)
    (hm : isGetEquivalent cfg.method = true)
    (hres : cfg.cacheResult = some { isStale := false, data := d }) :
    (runPipeline cfg reg0 d0 fuel).outcome =
        RunOutcome.resolvedWith
          { rdata := d, rstatus := none, rheaders := none } ∧
      (runPipeline cfg reg0 d0 fuel).transportCalls = 0 := by
  rw [runPipeline]
  simp [hid, hcfg, hm, hres]

/-- Witness for C4: a concrete fresh cache hit settles with the cached
data and makes zero transport calls. -/
theorem C4_fresh_cache_hit_witness :
    (runPipeline freshCacheCfg [] [] 3).outcome =
        RunOutcome.resolvedWith
          { rdata := "cachedOrders", rstatus := none, rheaders := none } ∧
      (runPipeline freshCacheCfg [] [] 3).transportCalls = 0 :=
  C4_fresh_cache_hit freshCacheCfg [] [] 3 "cachedOrders" rfl rfl rfl rfl

/-- C10: a fresh (non-stale) cache hit resolves the callers with an
object holding only the data field (status and headers absent), whereas a
settlement coming from the transport resolves with the full response
object (data, status and headers present); callers of a cached get must
tolerate both shapes. -/
theorem C10_settlement_shapes (cfg : RunConfig) (reg0 : List HandleT)
    (d0 : List (String × String)) (fuel : Nat) (d : String) (r : RespModel) :
    (jsTruthyStr cfg.cacheId = true → cfg.cacheConfigured = true →
      isGetEquivalent cfg.method = true →
      cfg.cacheResult = some { isStale := false, data := d } →
      (runPipeline cfg reg0 d0 fuel).outcome =
        RunOutcome.resolvedWith
          { rdata := d, rstatus := none, rheaders := none }) ∧
    (cfg.cacheId = none → cfg.controller.processResponse = none →
      cfg.callProcessResponse = none → cfg.transport 0 = Except.ok r →
      (runPipeline cfg reg0 d0 (fuel + 1)).outcome =
        RunOutcome.resolvedWith
          { rdata := r.data
            rstatus := some r.status
            rheaders := some r.headers }) := by
  constructor
  · intro hid hcfg hm hres
    rw [runPipeline]
    simp [hid, hcfg, hm, hres]
  · intro hid hcp hcall htr
    have hfalse : jsTruthyStr cfg.cacheId = false := by rw [hid]; rfl
    rw [runPipeline]
    simp only [hfalse, Bool.false_and, Bool.false_eq_true, if_false]
    rw [fetchDataLoop_succ_ok cfg fuel 0 _ r htr]
    simp [thenHandler, hcp, hcall]

/-- Witness for C10: the cache-hit shape carries no status or headers;
the transport shape carries both. -/
theorem C10_settlement_shapes_witness :
    (runPipeline freshCacheCfg [] [] 3).outcome =
        RunOutcome.resolvedWith
          { rdata := "cachedOrders", rstatus := none, rheaders := none } ∧
      (runPipeline netOnlyCfg [] [] 3).outcome =
        RunOutcome.resolvedWith
          { rdata := "freshOrders"
            rstatus := some 200
            rheaders := some [("content-type", "json")] } :=
  ⟨(C10_settlement_shapes freshCacheCfg [] [] 3 "cachedOrders" okOrders).1
      rfl rfl rfl rfl,
    (C10_settlement_shapes netOnlyCfg [] [] 2 "unused" okOrders).2
      rfl rfl rfl rfl⟩

/-- C6: a stale cache hit invokes getStaleWhileRevalidate with the stale
data (an exception it throws is caught and logged: it changes only the
logged-error count, never the settlement), the transport still runs, and
the final settlement is the fresh transport result, not the stale cached
value. -/
theorem C6_stale_while_revalidate (cfg : RunConfig) (reg0 : List HandleT)
    (d0 : List (String × String)) (fuel : Nat) (d : String) (hk : StaleHookM)
    (r : RespModel)
    (hid : jsTruthyStr cfg.cacheId = true)
    (hcfg : cfg.cacheConfigured = true)
    (hm : isGetEquivalent cfg.method = true)
    (hres : cfg.cacheResult = some { isStale := true, data := d })
    (hsh : cfg.staleHook = some hk)
    (hcall : cfg.callProcessResponse = none)
    (htr : cfg.transport 0 = Except.ok r) :
    (runPipeline cfg reg0 d0 (fuel + 1)).staleCalls = [d] ∧
      (runPipeline cfg reg0 d0 (fuel + 1)).staleLogged =
        (if hk.throws then 1 else 0) ∧
      (runPipeline cfg reg0 d0 (fuel + 1)).transportCalls = 1 ∧
      (runPipeline cfg reg0 d0 (fuel + 1)).outcome =
        RunOutcome.resolvedWith
          { rdata := r.data
            rstatus := some r.status
            rheaders := some r.headers } := by
  rw [runPipeline]
  have hstep := fetchDataLoop_succ_ok cfg fuel 0
    (staleNotify { isStale := true, data := d } (some hk) (initLoopState reg0 d0))
    r htr
  simp [hid, hcfg, hm, hres, hsh, hstep, thenHandler, hcall]

/-- Witness for C6: a concrete stale hit with a throwing hook still runs
one transport call and settles with the fresh transport response. -/
theorem C6_stale_while_revalidate_witness :
    (runPipeline staleCacheCfg [] [] 3).staleCalls = ["staleOrders"] ∧
      (runPipeline staleCacheCfg [] [] 3).staleLogged = 1 ∧
      (runPipeline staleCacheCfg [] [] 3).transportCalls = 1 ∧
      (runPipeline staleCacheCfg [] [] 3).outcome =
        RunOutcome.resolvedWith
          { rdata := "freshOrders"
            rstatus := some 200
            rheaders := some [("content-type", "json")] } :=
  C6_stale_while_revalidate staleCacheCfg [] [] 2 "staleOrders"
    { throws := true } okOrders rfl rfl rfl rfl rfl rfl rfl

/-- C9: on a successful response with rotateHeaders configured, the
mapping the hook returns is merged into the existing default request
headers: every key present in the returned mapping takes its new value
and every default-header key absent from it keeps its previous value. -/
theorem C9_rotate_headers_merge (cfg : RunConfig) (reg0 : List HandleT)
    (d0 : List (String × String)) (fuel : Nat) (r : RespModel)
    (rot : List (String × String) → List (String × String) →
      List (String × String))
    (hid : cfg.cacheId = none)
    (hrot : cfg.controller.rotateHeaders = some rot)
    (hcall : cfg.callProcessResponse = none)
    (htr : cfg.transport 0 = Except.ok r)
    (hnd : ((rot r.headers d0).map Prod.fst).Nodup) :
    (runPipeline cfg reg0 d0 (fuel + 1)).defaults =
        objectAssign d0 (rot r.headers d0) ∧
      (∀ k v, hlookup (rot r.headers d0) k = some v →
        hlookup (runPipeline cfg reg0 d0 (fuel + 1)).defaults k = some v) ∧
      (∀ k, hlookup (rot r.headers d0) k = none →
        hlookup (runPipeline cfg reg0 d0 (fuel + 1)).defaults k =
          hlookup d0 k) := by
  have hfalse : jsTruthyStr cfg.cacheId = false := by rw [hid]; rfl
  have hdef : (runPipeline cfg reg0 d0 (fuel + 1)).defaults =
      objectAssign d0 (rot r.headers d0) := by
    rw [runPipeline]
    simp only [hfalse, Bool.false_and, Bool.false_eq_true, if_false]
    rw [fetchDataLoop_succ_ok cfg fuel 0 _ r htr]
    simp [hrot, thenHandler, hcall]
  refine ⟨hdef, ?_, ?_⟩
  · intro k v hv
    rw [hdef]
    exact objectAssign_lookup_some (rot r.headers d0) d0 k v hnd hv
  · intro k hnone
    rw [hdef]
    exact objectAssign_lookup_none (rot r.headers d0) d0 k hnone

/-- A controller whose rotateHeaders hook returns the response headers
verbatim (the common token-rotation shape). -/
def rotateCfg : RunConfig :=
  { netOnlyCfg with
      transport := fun _ =>
        Except.ok { status := 200, headers := [("x-token", "t2")], data := "d" }
      controller := { noHooks with rotateHeaders := some (fun rh _ => rh) } }

/-- Witness for C9: rotating in a new x-token updates that key and keeps
the unrelated auth default untouched. -/
theorem C9_rotate_headers_merge_witness :
    (runPipeline rotateCfg [] [("auth", "t1")] 3).defaults =
        objectAssign [("auth", "t1")] [("x-token", "t2")] ∧
      hlookup (runPipeline rotateCfg [] [("auth", "t1")] 3).defaults
          "x-token" = some "t2" ∧
      hlookup (runPipeline rotateCfg [] [("auth", "t1")] 3).defaults
          "auth" = some "t1" := by
  have h := C9_rotate_headers_merge rotateCfg []
    [("auth", "t1")] 2 { status := 200, headers := [("x-token", "t2")], data := "d" }
    (fun rh _ => rh) rfl rfl rfl rfl (by decide)
  exact ⟨h.1, h.2.1 "x-token" "t2" rfl, h.2.2 "auth" rfl⟩

/-- A transport failure carrying a 502 Bad Gateway response: a status
not in the retry blacklist, received on the first attempt. -/
def badGatewayErr : ErrModel :=
  { response :=
      some { status := 502
             data := some { message := some (MsgField.strMsg "Bad gateway")
                            errors := none } }
    message := some "Request failed with status code 502" }

/-- A request whose every transport attempt fails with the 502 error:
no controller hooks, default configuration. -/
def retryProbeCfg : RunConfig :=
  { label := "Loading users"
    method := none
    cacheId := none
    cacheConfigured := false
    cacheResult := none
    staleHook := none
    callProcessResponse := none
    controller := noHooks
    transport := fun _ => Except.error badGatewayErr
    preProcessResponseErrorMessages := true }

/-- C2: the claimed default retry does not happen in the code. The
default-heuristic conjunct of the retry decision (Adapter.ts lines
412-419) reads the enclosing `const response` of line 379 — a binding
whose initializer is still running while the catch callback executes, so
it never holds the received error response — instead of `err.response`.
Hence with the shouldRetryRequest hook absent, a 502 failure on attempt 0
(status not in \x7b400, 401, 500\x7d and attempt number below the cap of 2, i.e.
exactly the condition under which the claim mandates a retry) is not
retried: the transport is invoked exactly once and the group is rejected
immediately with the formatted message. -/
theorem C2_no_default_retry_on_502 :
    FAILED_REQUEST_RETRY_STATUS_BLACKLIST.contains 502 = false ∧
      0 < MAX_REQUEST_RETRY_COUNT ∧
      requestWillRetryB noHooks badGatewayErr 0 none = false ∧
      (runPipeline retryProbeCfg [] [] 5).transportCalls = 1 ∧
      (runPipeline retryProbeCfg [] [] 5).outcome =
        RunOutcome.rejectedWithError
          (formatFailedMessage "Loading users" "Bad gateway") := by
  decide

/-- A controller-level processor that visibly transforms the response. -/
def appendBangProc : RespModel → RespModel :=
  fun r => { r with data := r.data ++ "!" }

/-- The raw successful response before any processing. -/
def rawResp : RespModel := { status := 200, headers := [], data := "raw" }

/-- Only the controller-level processResponse is configured; the per-call
processor is absent. -/
def controllerOnlyProcCfg : RunConfig :=
  { netOnlyCfg with
      transport := fun _ => Except.ok rawResp
      controller := { noHooks with processResponse := some appendBangProc } }

/-- C5: when only the controller-level processor is configured, the group
does not settle with that processor output. The then-handler (Adapter.ts
lines 388-399) computes the controller-processed response but then
returns the original `response` (line 398) whenever the per-call
processResponse is absent, so the settled value is the raw response
("raw") while the configured processor output is "raw!" — contradicting
the claimed composition with absent processors acting as identity. -/
theorem C5_controller_processor_discarded :
    (runPipeline controllerOnlyProcCfg [] [] 3).outcome =
        RunOutcome.resolvedWith
          { rdata := "raw", rstatus := some 200, rheaders := some [] } ∧
      appendBangProc rawResp =
        { status := 200, headers := [], data := "raw!" } ∧
      ¬ ("raw!" : String) = "raw" := by
  decide

/-- A failure whose response body message is a session-expiry phrase. -/
def sessionExpiredErr : ErrModel :=
  { response :=
      some { status := 401
             data := some { message := some (MsgField.strMsg "Session expired")
                            errors := none } }
    message := none }

/-- The controller forces a retry of the first attempt via
shouldRetryRequest; every transport attempt fails with the expired
session error. -/
def forcedRetryExpiryCfg : RunConfig :=
  { label := "Loading users"
    method := none
    cacheId := none
    cacheConfigured := false
    cacheResult := none
    staleHook := none
    callProcessResponse := none
    controller := { noHooks with shouldRetryRequest := some (fun _ n => n == 0) }
    transport := fun _ => Except.error sessionExpiredErr
    preProcessResponseErrorMessages := true }

/-- C3 counterexample: an attempt whose extracted message is the
session-expiry phrase "Session expired" is nevertheless retried (two
transport invocations) when the shouldRetryRequest hook returns true:
session-expiry detection does not short-circuit the retry decision,
which was taken earlier and independently. -/
theorem C3_session_expiry_counterexample :
    (classifyErrorMessage "Loading users" sessionExpiredErr).2 = true ∧
      (runPipeline forcedRetryExpiryCfg [HandleT.other 7] [] 5).transportCalls
        = 2 := by
  decide

/-- C3 amended: for a failed attempt whose extracted server-side error
message is a session-expiry phrase, provided the shouldRetryRequest hook
does not force a retry (absent or returning false for this attempt), the
orchestrator cancels every other currently-registered cancellation handle
(a copy of the registry taken after removing the handle of this attempt),
performs no retry, and rejects the group with the raw phrase rather than
the formatted failure message. -/
theorem C3_session_expiry_amended (cfg : RunConfig) (reg0 : List HandleT)
    (d0 : List (String × String)) (fuel : Nat) (e : ErrModel)
    (r : ErrResponse) (d : ErrData)
    (hflag : cfg.preProcessResponseErrorMessages = true)
    (hid : cfg.cacheId = none)
    (hhook : hookSaysRetry cfg.controller e 0 = false)
    (htr : cfg.transport 0 = Except.error e)
    (hresp : (applyProcessResponseError cfg.controller e).response = some r)
    (hdata : r.data = some d)
    (hmsg : EXPIRED_SESSION_ERROR_MESSAGES.contains (extractServerMessage d)
      = true)
    (hreg : ∀ m, HandleT.mine m ∉ reg0) :
    (runPipeline cfg reg0 d0 (fuel + 1)).outcome =
        RunOutcome.rejectedWithError (extractServerMessage d) ∧
      (runPipeline cfg reg0 d0 (fuel + 1)).cancelled = reg0 ∧
      (runPipeline cfg reg0 d0 (fuel + 1)).transportCalls = 1 := by
  have hfalse : jsTruthyStr cfg.cacheId = false := by rw [hid]; rfl
  have hq : requestWillRetryB cfg.controller e 0 none = false := by
    simp [requestWillRetryB, hhook]
  have hmem : extractServerMessage d ∈ EXPIRED_SESSION_ERROR_MESSAGES := by
    simpa using hmsg
  have hclass :
      classifyErrorMessage cfg.label (applyProcessResponseError cfg.controller e)
        = (extractServerMessage d, true) := by
    simp [classifyErrorMessage, hresp, hdata, hmem]
  have hsplice : spliceOut (reg0 ++ [HandleT.mine 0]) (HandleT.mine 0) = reg0 :=
    spliceOut_append_fresh reg0 _ (hreg 0)
  rw [runPipeline]
  simp only [hfalse, Bool.false_and, Bool.false_eq_true, if_false]
  rw [fetchDataLoop_succ_error_reject cfg fuel 0 _ e htr hflag hq]
  simp [classifyStep, hclass, hsplice, emitErrorEvent, pushAttempt, initLoopState]

/-- Witness for C3 amended: a concrete session-expired failure with no
retry hook cancels the sibling handle, makes one transport call and
rejects with the raw phrase. -/
theorem C3_session_expiry_amended_witness :
    (runPipeline { forcedRetryExpiryCfg with controller := noHooks }
        [HandleT.other 7] [] 5).outcome =
        RunOutcome.rejectedWithError "Session expired" ∧
      (runPipeline { forcedRetryExpiryCfg with controller := noHooks }
          [HandleT.other 7] [] 5).cancelled = [HandleT.other 7] ∧
      (runPipeline { forcedRetryExpiryCfg with controller := noHooks }
          [HandleT.other 7] [] 5).transportCalls = 1 :=
  C3_session_expiry_amended _ [HandleT.other 7] [] 4 sessionExpiredErr
    { status := 401
      data := some { message := some (MsgField.strMsg "Session expired")
                     errors := none } }
    { message := some (MsgField.strMsg "Session expired"), errors := none }
    rfl rfl rfl rfl rfl rfl (by decide) (by intro m; simp)

/-- The 502-failing request with error pre-processing disabled. -/
def flagOffCfg : RunConfig :=
  { retryProbeCfg with preProcessResponseErrorMessages := false }

/-- C7 counterexample: with preProcessResponseErrorMessages disabled, a
failed attempt settles the group (rejection with the raw error) without
removing its cancel token source — the handle of attempt 0 is still
registered after settlement, so removal on failure is not independent of
that flag. -/
theorem C7_handle_leak_counterexample :
    (runPipeline flagOffCfg [HandleT.other 9] [] 5).outcome =
        RunOutcome.rejectedWithErr badGatewayErr ∧
      (runPipeline flagOffCfg [HandleT.other 9] [] 5).registry =
        [HandleT.other 9, HandleT.mine 0] := by
  decide

/-- C7 amended: every transport attempt pushes exactly one fresh handle
(the handles pushed are `mine 0, mine 1, ...`, one per transport
invocation), the handle is removed on success, and on failure it is
removed provided error pre-processing is enabled (the default
configuration); under that default no run leaves any of its handles
registered. With the flag disabled a failed attempt leaves its handle
registered (see the counterexample). -/
theorem C7_handle_registry_amended (cfg : RunConfig) (reg0 : List HandleT)
    (d0 : List (String × String)) (fuel : Nat)
    (hflag : cfg.preProcessResponseErrorMessages = true)
    (hreg : ∀ m, HandleT.mine m ∉ reg0) :
    (runPipeline cfg reg0 d0 fuel).registry = reg0 ∧
      (runPipeline cfg reg0 d0 fuel).pushed =
        (List.range (runPipeline cfg reg0 d0 fuel).transportCalls).map
          HandleT.mine := by
  have hinit : ∀ ls : LoopState, ls.registry = reg0 → ls.pushed = [] →
      ls.transportCalls = 0 →
      (fetchDataLoop cfg fuel 0 ls).registry = reg0 ∧
        (fetchDataLoop cfg fuel 0 ls).pushed =
          (List.range (fetchDataLoop cfg fuel 0 ls).transportCalls).map
            HandleT.mine := by
    intro ls h1 h2 h3
    refine ⟨?_, ?_⟩
    · rw [fetchDataLoop_registry_restore cfg hflag fuel 0 ls
        (by rw [h1]; exact hreg)]
      exact h1
    · obtain ⟨k, hk1, hk2⟩ := fetchDataLoop_pushed cfg fuel 0 ls
      rw [hk1, hk2, h2, h3, List.range_eq_range']
      simp
  rw [runPipeline]
  by_cases hguard :
      (jsTruthyStr cfg.cacheId && cfg.cacheConfigured &&
        isGetEquivalent cfg.method) = true
  · rw [if_pos hguard]
    cases hres : cfg.cacheResult with
    | none => exact hinit _ rfl rfl rfl
    | some entry =>
        dsimp only
        cases hstale : entry.isStale with
        | true =>
            rw [if_pos rfl]
            cases hsh : cfg.staleHook with
            | none => exact hinit _ rfl rfl rfl
            | some hk => exact hinit _ rfl rfl rfl
        | false =>
            rw [if_neg (by simp)]
            simp
  · rw [if_neg hguard]
    exact hinit _ rfl rfl rfl

/-- Witness for C7 amended: a run with a sibling handle registered and the
default flag leaves the registry as it found it, having pushed exactly
one handle for its one transport call. -/
theorem C7_handle_registry_amended_witness :
    (runPipeline netOnlyCfg [HandleT.other 9] [] 3).registry =
        [HandleT.other 9] ∧
      (runPipeline netOnlyCfg [HandleT.other 9] [] 3).pushed =
        (List.range
          (runPipeline netOnlyCfg [HandleT.other 9] [] 3).transportCalls).map
          HandleT.mine :=
  C7_handle_registry_amended netOnlyCfg [HandleT.other 9] [] 3 rfl
    (by intro m; simp)

end AxiosApiAdapter
